/-
  Verification of the e-commerce admin dashboard's core logic:
  the client-side analytics aggregator (revenue, average order value,
  conversion rate, trailing-6-months sales series, top-products ranking)
  and the product repository (create / update / delete with attribute
  and image-asset synchronization against a backend-as-a-service).

  The aggregator is embedded as pure functions over rational-valued
  monetary amounts (JS numbers are modelled as ℚ).  The repository
  operations are embedded as functions from an explicit environment
  (the outcome each backend call would produce) to a result together
  with a trace of the backend actions performed, so that claims about
  which writes were attempted, what was logged and what was swallowed
  become statements about the trace.
-/
import Mathlib

namespace ECommerceCp

/-! ## Analytics data model (joined order view used by the dashboard) -/

/-- The product columns joined onto an order item
    (`item.products` in the dashboard); either localized name may be
    absent in the joined view. -/
structure JoinedProduct where
  name_ar : Option String
  name_en : Option String
deriving Repr, DecidableEq

/-- One `order_items` row as seen by the analytics page. -/
structure OrderItem where
  price : ℚ
  quantity : ℚ
  products : Option JoinedProduct
deriving Repr, DecidableEq

/-- One order row as seen by the analytics page: `total_price`,
    optional `created_at` timestamp string, optional joined items. -/
structure Order where
  total_price : ℚ
  created_at : Option String
  order_items : Option (List OrderItem)
deriving Repr, DecidableEq

/-! ## Revenue, average order value, conversion rate
    (EcommerceAnalytics, `fetchAnalyticsData`) -/

/-- `orders.reduce((sum, order) => sum + order.total_price, 0)`. -/
def totalRevenue (orders : List Order) : ℚ :=
  orders.foldl (fun sum order => sum + order.total_price) 0

/-- `orders.length > 0 ? totalRevenue / orders.length : 0`. -/
def averageOrderValue (orders : List Order) : ℚ :=
  if orders.length > 0 then totalRevenue orders / (orders.length : ℚ) else 0

/-- `userStats.total > 0 ? (orders.length / userStats.total) * 100 : 0`. -/
def conversionRate (orders : List Order) (userTotal : ℕ) : ℚ :=
  if userTotal > 0 then ((orders.length : ℚ) / (userTotal : ℚ)) * 100 else 0

/-! ## The JavaScript Date arithmetic used by the monthly series

    `salesByMonth` builds each bucket from
    `date.setMonth(date.getMonth() - i)` followed by
    `date.toISOString().slice(0, 7)`.  We model the date as a
    calendar triple (year, 0-based month, day); time-of-day and the
    local/UTC offset are abstracted away.  `Date.setMonth` follows the
    ECMAScript `MakeDay` rules: the month index is floor-divided into
    the year, and a day-of-month that does not exist in the target
    month overflows into the following month. -/

/-- A calendar date as stored in a JavaScript `Date`:
    `month` is 0-based (0 = January), `day` is 1-based. -/
structure JsDate where
  year : ℕ
  month : ℕ
  day : ℕ
deriving Repr, DecidableEq

/-- Whether a year is a leap year (Gregorian rules). -/
def isLeapYear (y : ℕ) : Bool :=
  y % 4 == 0 && (y % 100 != 0 || y % 400 == 0)

/-- Number of days of the 0-based month `m` of year `y`. -/
def daysInMonth (y : ℕ) (m : ℕ) : ℕ :=
  match m with
  | 1 => if isLeapYear y then 29 else 28
  | 3 | 5 | 8 | 10 => 30
  | _ => 31

/-- ECMAScript `Date.prototype.setMonth m` on a valid date: the
    (possibly negative) month index is floor-divided into the year,
    and a day past the end of the target month overflows into the
    following month (e.g. setting a day-31 date to a 30-day month
    yields the 1st of the month after). -/
def jsSetMonth (d : JsDate) (m : ℤ) : JsDate :=
  let y : ℕ := ((d.year : ℤ) + m.fdiv 12).toNat
  let mo : ℕ := (m.fmod 12).toNat
  if d.day > daysInMonth y mo then
    if mo = 11 then ⟨y + 1, 0, d.day - daysInMonth y mo⟩
    else ⟨y, mo + 1, d.day - daysInMonth y mo⟩
  else ⟨y, mo, d.day⟩

/-- A natural number printed with leading zeros up to width `w`. -/
def padNat (w : ℕ) (n : ℕ) : String :=
  let s := toString n
  if s.length < w then String.mk (List.replicate (w - s.length) '0') ++ s
  else s

/-- `date.toISOString().slice(0, 7)`: the `YYYY-MM` key of a date
    (1-based month, zero-padded). -/
def monthKey (d : JsDate) : String :=
  padNat 4 d.year ++ "-" ++ padNat 2 (d.month + 1)

/-! ## Monthly series and top products -/

/-- One entry of the monthly sales series.  The dashboard renders the
    bucket's date through a localized month/year label; the embedding
    identifies the bucket by its `YYYY-MM` key instead, since the
    locale formatter is an external collaborator. -/
structure MonthBucket where
  month : String
  revenue : ℚ
  orders : ℕ
deriving Repr, DecidableEq

/-- The trailing-6-months series of `fetchAnalyticsData`: for
    i = 0..5 take `new Date()` with `setMonth(getMonth() - i)`,
    key the bucket by the `YYYY-MM` slice of the ISO string, keep the
    orders whose `created_at` starts with that key, sum their
    `total_price`, and finally reverse the newest-first list. -/
def salesByMonth (now : JsDate) (orders : List Order) : List MonthBucket :=
  ((List.range 6).map (fun i =>
    let date := jsSetMonth now ((now.month : ℤ) - (i : ℤ))
    let key := monthKey date
    let monthOrders := orders.filter (fun order =>
      match order.created_at with
      | some s => s.startsWith key
      | none => false)
    { month := key
      revenue := monthOrders.foldl (fun sum order => sum + order.total_price) 0
      orders := monthOrders.length })).reverse

/-- JavaScript truthiness-based fallback `o || d` for an optional
    string: an absent value and the empty string both fall through. -/
def jsOrString (o : Option String) (d : String) : String :=
  match o with
  | some s => if s = "" then d else s
  | none => d

/-- `item.products?.name_ar || item.products?.name_en || "Unknown Product"`. -/
def resolveName (item : OrderItem) : String :=
  jsOrString (item.products.bind (·.name_ar))
    (jsOrString (item.products.bind (·.name_en)) "Unknown Product")

/-- One accumulated entry of the `productSales` map. -/
structure SalesEntry where
  name : String
  sales : ℚ
  quantity : ℚ
deriving Repr, DecidableEq

/-- Processing one order item against the `productSales` map.  The JS
    `Map` preserves insertion order, so it is modelled as a list of
    entries with distinct names: an existing entry is updated in
    place, a new name is appended at the end. -/
def addItem (m : List SalesEntry) (item : OrderItem) : List SalesEntry :=
  let productName := resolveName item
  if m.any (fun e => e.name = productName) then
    m.map (fun e =>
      if e.name = productName then
        { e with sales := e.sales + item.price * item.quantity
                 quantity := e.quantity + item.quantity }
      else e)
  else
    m ++ [{ name := productName
            sales := item.price * item.quantity
            quantity := item.quantity }]

/-- All items of all fetched orders, in iteration order
    (`orders.forEach`, then `order.order_items?.forEach`; an absent
    item list contributes nothing). -/
def allItems (orders : List Order) : List OrderItem :=
  orders.flatMap (fun order =>
    match order.order_items with
    | some items => items
    | none => [])

/-- The values of the `productSales` map after all orders are
    processed, in insertion order. -/
def productSalesValues (orders : List Order) : List SalesEntry :=
  (allItems orders).foldl addItem []

/-- The descending-by-sales comparison of the JS comparator
    `(a, b) => b.sales - a.sales`, as the "may stay before" relation
    of a stable sort. -/
def salesGe (a b : SalesEntry) : Bool :=
  b.sales ≤ a.sales

/-- `Array.from(productSales.values()).sort((a, b) => b.sales - a.sales).slice(0, 5)`.
    ECMAScript `Array.prototype.sort` is a stable sort, modelled by
    `List.mergeSort`. -/
def topProducts (orders : List Order) : List SalesEntry :=
  ((productSalesValues orders).mergeSort salesGe).take 5

/-! ## Product repository data model (apiProducts) -/

/-- A `product_attributes` row (`ProductAttribute` interface). -/
structure ProductAttribute where
  id : Option String := none
  product_id : Option String := none
  attribute_name : String
  attribute_value : String
deriving Repr, DecidableEq

/-- The `Product` interface: the caller-supplied shape, including the
    optional joined `attributes`. -/
structure Product where
  id : Option String := none
  name_ar : String
  name_en : String
  description_ar : Option String := none
  description_en : Option String := none
  price : ℚ
  offer_price : Option ℚ := none
  stock : Option ℕ := none
  image_url : Option (List String) := none
  category_id : Option String := none
  is_best_seller : Option Bool := none
  limited_time_offer : Option Bool := none
  created_at : Option String := none
  updated_at : Option String := none
  attributes : Option (List ProductAttribute) := none
deriving Repr, DecidableEq

/-- A row of the `products` table as returned by
    `.insert(...).select().single()` or `.update(...).select().single()`:
    the backend has assigned an `id`, and the row has no `attributes`
    field (attributes live in a separate table and are only present
    when a read explicitly joins them). -/
structure ProductRow where
  id : String
  name_ar : String
  name_en : String
  description_ar : Option String := none
  description_en : Option String := none
  price : ℚ
  offer_price : Option ℚ := none
  stock : Option ℕ := none
  image_url : Option (List String) := none
  category_id : Option String := none
  is_best_seller : Option Bool := none
  limited_time_offer : Option Bool := none
  created_at : Option String := none
  updated_at : Option String := none
deriving Repr, DecidableEq

/-- A `Partial<Product>` update payload: every field optional.
    Only `attributes` is inspected by `updateProduct`; the rest is
    forwarded opaquely to the row update. -/
structure PartialProduct where
  id : Option String := none
  name_ar : Option String := none
  name_en : Option String := none
  description_ar : Option String := none
  description_en : Option String := none
  price : Option ℚ := none
  offer_price : Option ℚ := none
  stock : Option ℕ := none
  image_url : Option (List String) := none
  category_id : Option String := none
  is_best_seller : Option Bool := none
  limited_time_offer : Option Bool := none
  created_at : Option String := none
  updated_at : Option String := none
  attributes : Option (List ProductAttribute) := none
deriving Repr, DecidableEq

/-- One backend call performed by a repository operation, recorded in
    order of execution.  `log` is the `console.error` channel. -/
inductive Action where
  | insertProductRow
  | insertAttrRows (attrs : List ProductAttribute)
  | updateProductRow (id : String)
  | deleteAttrRows (productId : String)
  | fetchImageUrls (id : String)
  | removeImage (path : String)
  | deleteProductRow (id : String)
  | log (msg : String)
deriving Repr, DecidableEq

/-- Whether an action is a write to the logging channel. -/
def Action.isLog : Action → Bool
  | .log _ => true
  | _ => false

/-! ## createProduct -/

/-- The backend outcomes a `createProduct` call can observe: the
    result of the product-row insert, and (per payload) whether the
    attribute-row insert reports an error. -/
structure CreateEnv where
  insertProduct : Except String ProductRow
  insertAttributes : List ProductAttribute → Option String
deriving Inhabited

/-- `createProduct(productData)`: split `attributes` off the payload,
    insert the product row; on row-insert error log it and throw
    "تعذر إنشاء المنتج".  Otherwise, when attributes were supplied and
    non-empty, insert them tagged with the created row's id; an
    attribute-insert error is only logged.  The created row is
    returned either way. -/
def createProduct (productData : Product) (env : CreateEnv) :
    Except String ProductRow × List Action :=
  let attributes := productData.attributes
  match env.insertProduct with
  | .error productError =>
    (.error "تعذر إنشاء المنتج",
     [.insertProductRow, .log ("خطأ في إنشاء المنتج: " ++ productError)])
  | .ok createdProduct =>
    match attributes with
    | some attrs =>
      if attrs.length > 0 then
        let attributesWithProductId :=
          attrs.map (fun attr => { attr with product_id := some createdProduct.id })
        match env.insertAttributes attributesWithProductId with
        | some attributesError =>
          (.ok createdProduct,
           [.insertProductRow, .insertAttrRows attributesWithProductId,
            .log ("خطأ في إنشاء خصائص المنتج: " ++ attributesError)])
        | none =>
          (.ok createdProduct,
           [.insertProductRow, .insertAttrRows attributesWithProductId])
      else (.ok createdProduct, [.insertProductRow])
    | none => (.ok createdProduct, [.insertProductRow])

/-! ## deleteProduct -/

/-- Split a character list at the first occurrence of a (non-empty)
    pattern: `some (before, after)` with the pattern removed, or
    `none` when the pattern does not occur. -/
def splitFirst (pat : List Char) : List Char → Option (List Char × List Char)
  | [] => if pat.isEmpty then some ([], []) else none
  | c :: cs =>
    if pat.isPrefixOf (c :: cs) then some ([], (c :: cs).drop pat.length)
    else
      match splitFirst pat cs with
      | some (pre, post) => some (c :: pre, post)
      | none => none

/-- Everything of a string before its first occurrence of `sep`
    (the whole string when `sep` does not occur). -/
def beforeFirst (s sep : String) : String :=
  match splitFirst sep.data s.data with
  | some (pre, _) => String.mk pre
  | none => s

/-- `new URL(url).pathname` for a well-formed absolute URL: the part
    from the first "/" after "://" up to the query or fragment, "/"
    when no path follows the host.  On a string without "://" the
    real `URL` constructor throws; such strings are outside this
    model and mapped to "". -/
def pathnameOf (url : String) : String :=
  match splitFirst "://".data url.data with
  | some (_scheme, afterScheme) =>
    match splitFirst "/".data afterScheme with
    | some (_host, afterSlash) =>
      beforeFirst (beforeFirst (String.mk ('/' :: afterSlash)) "?") "#"
    | none => "/"
  | none => ""

/-- Whether a string parses as an absolute URL in this model
    (contains "://"); only such strings reach the regex match without
    the `URL` constructor throwing. -/
def isAbsoluteUrl (url : String) : Bool :=
  (splitFirst "://".data url.data).isSome

/-- The fixed public-object prefix matched against the pathname. -/
def storageObjectPrefix : String :=
  "/storage/v1/object/public/product-images/"

/-- `path.match(/\/storage\/v1\/object\/public\/product-images\/(.+)/)?.[1]`:
    the (greedy, to end of string) capture after the first occurrence
    of the prefix, or none when the prefix does not occur or nothing
    follows it. -/
def extractFilePath (path : String) : Option String :=
  match splitFirst storageObjectPrefix.data path.data with
  | some (_pre, rest) => if rest.isEmpty then none else some (String.mk rest)
  | none => none

/-- The backend outcomes a `deleteProduct` call can observe: the
    `image_url` fetch result (the column itself may be null), the
    per-path storage removal outcome, and the row-delete outcome
    (`none` = success). -/
structure DeleteEnv where
  fetchImageUrls : Except String (Option (List String))
  removeImage : String → Option String
  deleteRow : Option String
deriving Inhabited

/-- The backend actions one image URL of `deleteProduct` gives rise
    to: parse the pathname, match it against the storage prefix; on a
    match attempt the removal and log a removal error; otherwise do
    nothing. -/
def imageActions (env : DeleteEnv) (imageUrl : String) : List Action :=
  match extractFilePath (pathnameOf imageUrl) with
  | some filePath =>
    match env.removeImage filePath with
    | some storageError =>
      [.removeImage filePath, .log ("فشل حذف صورة المنتج: " ++ storageError)]
    | none => [.removeImage filePath]
  | none => []

/-- `deleteProduct(id)`: fetch the product's `image_url` list; on
    fetch error log it and throw "حدث خطأ أثناء جلب بيانات المنتج".
    Otherwise walk the image URLs (an absent or empty list is
    skipped), removing each matched storage object and merely logging
    removal failures, then delete the product row; a row-delete error
    is thrown as "حدث خطأ أثناء حذف المنتج". -/
def deleteProduct (id : String) (env : DeleteEnv) :
    Except String Unit × List Action :=
  match env.fetchImageUrls with
  | .error fetchError =>
    (.error "حدث خطأ أثناء جلب بيانات المنتج",
     [.fetchImageUrls id, .log ("Supabase fetch error: " ++ fetchError)])
  | .ok imageUrlColumn =>
    let urls := match imageUrlColumn with
      | some us => us
      | none => []
    let trace := .fetchImageUrls id ::
      (urls.flatMap (imageActions env) ++ [.deleteProductRow id])
    match env.deleteRow with
    | some _deleteError => (.error "حدث خطأ أثناء حذف المنتج", trace)
    | none => (.ok (), trace)

/-! ## updateProduct -/

/-- The backend outcomes an `updateProduct` call can observe: the row
    update result, the attribute-delete outcome (which the source
    discards without looking at it), and the attribute-insert outcome
    per payload. -/
structure UpdateEnv where
  updateRow : Except String ProductRow
  deleteAttrs : Option String
  insertAttrs : List ProductAttribute → Option String
deriving Inhabited

/-- `updateProduct(id, updatedProduct)`: split `attributes` off the
    partial payload and update the row; on update error log it and
    throw "تعذر تحديث المنتج".  When an `attributes` field is present
    (even empty) delete the existing attribute rows — the source
    awaits this call without destructuring its error, so its outcome
    is ignored — then, when the new set is non-empty, insert it
    tagged with `id`, logging (only) an insert error.  The updated
    row is returned. -/
def updateProduct (id : String) (updatedProduct : PartialProduct)
    (env : UpdateEnv) : Except String ProductRow × List Action :=
  let attributes := updatedProduct.attributes
  match env.updateRow with
  | .error e =>
    (.error "تعذر تحديث المنتج",
     [.updateProductRow id, .log ("خطأ في تحديث المنتج: " ++ e)])
  | .ok data =>
    match attributes with
    | none => (.ok data, [.updateProductRow id])
    | some attrs =>
      if attrs.length > 0 then
        let attributesWithProductId :=
          attrs.map (fun attr => { attr with product_id := some id })
        match env.insertAttrs attributesWithProductId with
        | some attributesError =>
          (.ok data,
           [.updateProductRow id, .deleteAttrRows id,
            .insertAttrRows attributesWithProductId,
            .log ("خطأ في تحديث خصائص المنتج: " ++ attributesError)])
        | none =>
          (.ok data,
           [.updateProductRow id, .deleteAttrRows id,
            .insertAttrRows attributesWithProductId])
      else (.ok data, [.updateProductRow id, .deleteAttrRows id])

/-! ## Specification-side formulas used by the claims -/

/-- Specification formula: the accumulated sales amount of a display
    name is the sum of price × quantity over all items resolving to
    that name. -/
def sumSales (name : String) (items : List OrderItem) : ℚ :=
  ((items.filter (fun it => resolveName it = name)).map
    (fun it => it.price * it.quantity)).sum

/-- Specification formula: the accumulated quantity of a display name
    is the sum of quantities over all items resolving to that name. -/
def sumQuantity (name : String) (items : List OrderItem) : ℚ :=
  ((items.filter (fun it => resolveName it = name)).map
    (fun it => it.quantity)).sum

/-! ## Shared example fixtures -/

/-- Example order item: name A, price 50, quantity 2. -/
def exItem : OrderItem :=
  { price := 50, quantity := 2,
    products := some { name_ar := some "A", name_en := none } }

/-- Example order list: one order with the example item and one order
    without items. -/
def exOrders : List Order :=
  [{ total_price := 100, created_at := some "2024-01-15",
     order_items := some [exItem] },
   { total_price := 50, created_at := none, order_items := none }]

/-- Example attribute payload. -/
def exAttr : ProductAttribute :=
  { attribute_name := "color", attribute_value := "red" }

/-- Example product row as the backend would return it. -/
def exRow : ProductRow :=
  { id := "prod-1", name_ar := "منتج", name_en := "product", price := 10 }

/-- Example creation payload carrying one attribute. -/
def exProduct : Product :=
  { name_ar := "منتج", name_en := "product", price := 10,
    attributes := some [exAttr] }

/-! ## Helper lemmas -/

/-- The `reduce`-style fold of `totalRevenue` is the sum of the
    orders' total prices. -/
theorem totalRevenue_eq_sum (orders : List Order) :
    totalRevenue orders = (orders.map (fun o => o.total_price)).sum := by
  rw [totalRevenue, List.sum_eq_foldl, List.foldl_map]

/-! ## C4: average order value -/

/-- Claim C4: `averageOrderValue` equals `totalRevenue` divided by the
    fetched order count when that count is positive, and 0 when the
    fetched order list is empty, where `totalRevenue` is the sum of
    `total_price` over all fetched orders. -/
theorem averageOrderValue_spec (orders : List Order) :
    totalRevenue orders = (orders.map (fun o => o.total_price)).sum ∧
    (0 < orders.length →
      averageOrderValue orders = totalRevenue orders / (orders.length : ℚ)) ∧
    (orders = [] → averageOrderValue orders = 0) := by
  refine ⟨totalRevenue_eq_sum orders, fun h => ?_, fun h => ?_⟩
  · rw [averageOrderValue, if_pos h]
  · subst h; rfl

/-- Witness for C4 at the example order list (2 orders, revenue 150). -/
theorem averageOrderValue_spec_witness :
    averageOrderValue exOrders = totalRevenue exOrders / (exOrders.length : ℚ) ∧
    averageOrderValue [] = 0 :=
  ⟨(averageOrderValue_spec exOrders).2.1 (by decide),
   (averageOrderValue_spec []).2.2 rfl⟩

/-! ## C5: conversion rate -/

/-- Claim C5: `conversionRate` is 0 when the user-statistics total is
    0, and otherwise (fetched order count / user total) × 100. -/
theorem conversionRate_spec (orders : List Order) (userTotal : ℕ) :
    (userTotal = 0 → conversionRate orders userTotal = 0) ∧
    (0 < userTotal →
      conversionRate orders userTotal =
        ((orders.length : ℚ) / (userTotal : ℚ)) * 100) := by
  refine ⟨fun h => ?_, fun h => ?_⟩
  · subst h; rfl
  · rw [conversionRate, if_pos h]

/-- Witness for C5 at the example order list and both user totals. -/
theorem conversionRate_spec_witness :
    conversionRate exOrders 0 = 0 ∧
    conversionRate exOrders 2 = ((exOrders.length : ℚ) / (2 : ℕ)) * 100 :=
  ⟨(conversionRate_spec exOrders 0).1 rfl,
   (conversionRate_spec exOrders 2).2 (by decide)⟩

/-! ## C1: the monthly series and the end-of-month `setMonth` slip

    The claim says the bucket computed at iteration i always covers
    the calendar month i months before the current one.  The series
    is built with `date.setMonth(date.getMonth() - i)`, and ECMAScript
    `setMonth` lets a day-of-month that does not exist in the target
    month overflow into the following month.  On 2024-03-31 the
    iteration for i = 1 lands on Feb 31 = Mar 2, so its bucket is
    keyed "2024-03" instead of "2024-02": the current month appears
    twice and February (and, via i = 4, November) is skipped
    entirely. -/

/-- Claim C1 fails on the code: run on now = 2024-03-31 (month index
    2, day 31) and an empty order list, the six bucket keys are
    ["2023-10", "2023-12", "2023-12", "2024-01", "2024-03", "2024-03"]
    — the key "2024-02" of the month one before the current month
    never occurs, although the current month's key is "2024-03" and
    the bucket one before last should cover "2024-02". -/
theorem salesByMonth_endOfMonth_bug :
    (salesByMonth ⟨2024, 2, 31⟩ []).map (fun b => b.month) =
      ["2023-10", "2023-12", "2023-12", "2024-01", "2024-03", "2024-03"] ∧
    monthKey ⟨2024, 2, 31⟩ = "2024-03" ∧
    "2024-02" ∉ (salesByMonth ⟨2024, 2, 31⟩ []).map (fun b => b.month) := by
  refine ⟨by decide, by decide, by decide⟩

/-! ## C2: createProduct partial-failure policy -/

/-- Claim C2: when the product-row insert succeeds but the attribute
    insert fails, `createProduct` still returns the created row with
    no error, never deletes (rolls back) the created product row, and
    records the attribute failure on the logging channel; when the
    product-row insert fails, it aborts with an error and no
    attribute insert is attempted. -/
theorem createProduct_partial_failure_policy
    (productData : Product) (env : CreateEnv) :
    (∀ attrs row e,
      productData.attributes = some attrs → attrs ≠ [] →
      env.insertProduct = .ok row →
      env.insertAttributes
        (attrs.map (fun attr => { attr with product_id := some row.id })) = some e →
      (createProduct productData env).1 = .ok row ∧
      Action.log ("خطأ في إنشاء خصائص المنتج: " ++ e) ∈ (createProduct productData env).2 ∧
      (∀ i, Action.deleteProductRow i ∉ (createProduct productData env).2)) ∧
    (∀ e, env.insertProduct = .error e →
      (createProduct productData env).1 = .error "تعذر إنشاء المنتج" ∧
      (∀ attrs, Action.insertAttrRows attrs ∉ (createProduct productData env).2)) := by
  constructor
  · intro attrs row e ha hne hr he
    have hlen : attrs.length > 0 := List.length_pos.mpr hne
    simp [createProduct, ha, hr, he, hlen]
  · intro e he
    simp [createProduct, he]

/-- A create environment in which the row insert succeeds with the
    example row and the attribute insert fails. -/
def createEnvAttrFail : CreateEnv :=
  { insertProduct := .ok exRow
    insertAttributes := fun _ => some "duplicate key" }

/-- A create environment in which the row insert itself fails. -/
def createEnvRowFail : CreateEnv :=
  { insertProduct := .error "network down"
    insertAttributes := fun _ => none }

/-- Witness for C2: on the example payload, the attribute-insert
    failure leaves the result a success and logs the failure, and a
    row-insert failure aborts with no attribute write. -/
theorem createProduct_partial_failure_policy_witness :
    (createProduct exProduct createEnvAttrFail).1 = .ok exRow ∧
    Action.log ("خطأ في إنشاء خصائص المنتج: " ++ "duplicate key") ∈
      (createProduct exProduct createEnvAttrFail).2 ∧
    (createProduct exProduct createEnvRowFail).1 = .error "تعذر إنشاء المنتج" :=
  ⟨((createProduct_partial_failure_policy exProduct createEnvAttrFail).1
      [exAttr] exRow "duplicate key" rfl (by decide) rfl rfl).1,
   ((createProduct_partial_failure_policy exProduct createEnvAttrFail).1
      [exAttr] exRow "duplicate key" rfl (by decide) rfl rfl).2.1,
   ((createProduct_partial_failure_policy exProduct createEnvRowFail).2
      "network down" rfl).1⟩

/-! ## C10: createProduct returns the bare inserted row -/

/-- Claim C10: a successful `createProduct` returns exactly the row
    produced by the product-row insert, for every payload — in
    particular also when supplied attributes are inserted
    successfully.  The returned value has type `ProductRow`, which by
    construction carries no `attributes` field: a caller must re-read
    the product to see joined attributes. -/
theorem createProduct_returns_bare_row
    (productData : Product) (env : CreateEnv) (row : ProductRow)
    (hr : env.insertProduct = .ok row) :
    (createProduct productData env).1 = .ok row := by
  unfold createProduct
  rw [hr]
  cases productData.attributes with
  | none => rfl
  | some attrs =>
    by_cases h : attrs.length > 0
    · simp only [h, if_true]
      cases env.insertAttributes
        (attrs.map (fun attr => { attr with product_id := some row.id })) <;> rfl
    · simp only [h, if_false]

/-- A create environment in which both inserts succeed. -/
def createEnvAllOk : CreateEnv :=
  { insertProduct := .ok exRow
    insertAttributes := fun _ => none }

/-- Witness for C10: with attributes supplied and successfully
    inserted, the returned value is exactly the inserted row. -/
theorem createProduct_returns_bare_row_witness :
    (createProduct exProduct createEnvAllOk).1 = .ok exRow :=
  createProduct_returns_bare_row exProduct createEnvAllOk exRow rfl

/-! ## C6: deleteProduct aborts when the image-URL fetch fails -/

/-- Claim C6: when the initial `image_url` fetch fails,
    `deleteProduct` raises an error, attempts no storage removal and
    never deletes the product row. -/
theorem deleteProduct_fetch_failure
    (id : String) (env : DeleteEnv) (e : String)
    (hf : env.fetchImageUrls = .error e) :
    (deleteProduct id env).1 = .error "حدث خطأ أثناء جلب بيانات المنتج" ∧
    (∀ p, Action.removeImage p ∉ (deleteProduct id env).2) ∧
    (∀ i, Action.deleteProductRow i ∉ (deleteProduct id env).2) := by
  simp [deleteProduct, hf]

/-- A delete environment whose image-URL fetch fails. -/
def deleteEnvFetchFail : DeleteEnv :=
  { fetchImageUrls := .error "row not found"
    removeImage := fun _ => none
    deleteRow := none }

/-- Witness for C6 at a concrete failing fetch. -/
theorem deleteProduct_fetch_failure_witness :
    (deleteProduct "prod-1" deleteEnvFetchFail).1 =
      .error "حدث خطأ أثناء جلب بيانات المنتج" ∧
    Action.deleteProductRow "prod-1" ∉ (deleteProduct "prod-1" deleteEnvFetchFail).2 :=
  ⟨(deleteProduct_fetch_failure "prod-1" deleteEnvFetchFail "row not found" rfl).1,
   (deleteProduct_fetch_failure "prod-1" deleteEnvFetchFail "row not found" rfl).2.2 "prod-1"⟩

/-! ## C7: deleteProduct tolerates per-image removal failures -/

/-- Claim C7: once the `image_url` fetch succeeds, every matched
    image removal is attempted no matter how the others fare, a
    removal failure is logged and does not stop the operation, the
    row deletion is always attempted afterwards and succeeds when the
    backend row delete succeeds, while a failure of the row deletion
    itself is a hard error surfaced to the caller. -/
theorem deleteProduct_image_failure_tolerated
    (id : String) (env : DeleteEnv) (urls : List String)
    (hf : env.fetchImageUrls = .ok (some urls)) :
    (deleteProduct id env).2 =
      .fetchImageUrls id :: (urls.flatMap (imageActions env) ++ [.deleteProductRow id]) ∧
    (∀ u p, u ∈ urls → extractFilePath (pathnameOf u) = some p →
      Action.removeImage p ∈ (deleteProduct id env).2) ∧
    (∀ u p e, u ∈ urls → extractFilePath (pathnameOf u) = some p →
      env.removeImage p = some e →
      Action.log ("فشل حذف صورة المنتج: " ++ e) ∈ (deleteProduct id env).2) ∧
    Action.deleteProductRow id ∈ (deleteProduct id env).2 ∧
    (env.deleteRow = none → (deleteProduct id env).1 = .ok ()) ∧
    (∀ e, env.deleteRow = some e →
      (deleteProduct id env).1 = .error "حدث خطأ أثناء حذف المنتج") := by
  have htrace : (deleteProduct id env).2 =
      .fetchImageUrls id :: (urls.flatMap (imageActions env) ++ [.deleteProductRow id]) := by
    unfold deleteProduct
    rw [hf]
    cases env.deleteRow <;> rfl
  refine ⟨htrace, ?_, ?_, ?_, ?_, ?_⟩
  · intro u p hu hp
    rw [htrace]
    refine List.mem_cons_of_mem _ (List.mem_append_left _ ?_)
    refine List.mem_flatMap.mpr ⟨u, hu, ?_⟩
    unfold imageActions
    rw [hp]
    cases henv : env.removeImage p <;> simp [henv]
  · intro u p e hu hp he
    rw [htrace]
    refine List.mem_cons_of_mem _ (List.mem_append_left _ ?_)
    refine List.mem_flatMap.mpr ⟨u, hu, ?_⟩
    unfold imageActions
    rw [hp]
    simp [he]
  · rw [htrace]
    exact List.mem_cons_of_mem _ (List.mem_append_right _ (List.mem_singleton.mpr rfl))
  · intro hd
    unfold deleteProduct
    rw [hf, hd]
  · intro e hd
    unfold deleteProduct
    rw [hf, hd]

/-- A delete environment with three stored image URLs, whose storage
    removal fails exactly on the second object. -/
def deleteEnvOneImageFail : DeleteEnv :=
  { fetchImageUrls := .ok (some
      ["https://x.co/storage/v1/object/public/product-images/products/a.png",
       "https://x.co/storage/v1/object/public/product-images/products/b.png",
       "https://x.co/storage/v1/object/public/product-images/products/c.png"])
    removeImage := fun p => if p = "products/b.png" then some "object locked" else none
    deleteRow := none }

/-- Witness for C7: with the middle of three removals failing, the
    other two removals are still attempted, the failure is logged,
    and the product row is still deleted successfully. -/
theorem deleteProduct_image_failure_tolerated_witness :
    Action.removeImage "products/a.png" ∈ (deleteProduct "prod-1" deleteEnvOneImageFail).2 ∧
    Action.removeImage "products/c.png" ∈ (deleteProduct "prod-1" deleteEnvOneImageFail).2 ∧
    Action.log ("فشل حذف صورة المنتج: " ++ "object locked") ∈
      (deleteProduct "prod-1" deleteEnvOneImageFail).2 ∧
    (deleteProduct "prod-1" deleteEnvOneImageFail).1 = .ok () :=
  ⟨((deleteProduct_image_failure_tolerated "prod-1" deleteEnvOneImageFail _ rfl).2.1
      "https://x.co/storage/v1/object/public/product-images/products/a.png"
      "products/a.png" (by decide) (by decide)),
   ((deleteProduct_image_failure_tolerated "prod-1" deleteEnvOneImageFail _ rfl).2.1
      "https://x.co/storage/v1/object/public/product-images/products/c.png"
      "products/c.png" (by decide) (by decide)),
   ((deleteProduct_image_failure_tolerated "prod-1" deleteEnvOneImageFail _ rfl).2.2.1
      "https://x.co/storage/v1/object/public/product-images/products/b.png"
      "products/b.png" "object locked" (by decide) (by decide) rfl),
   ((deleteProduct_image_failure_tolerated "prod-1" deleteEnvOneImageFail _ rfl).2.2.2.2.1 rfl)⟩

/-! ## C9: URLs outside the public-object prefix are silently skipped -/

/-- Claim C9: a stored image URL that parses as a URL but whose path
    does not contain the fixed public-object prefix contributes no
    backend action at all — no storage removal, no error and no log
    entry — and the row deletion still proceeds (and succeeds when
    the backend row delete succeeds).  (A string the URL constructor
    cannot parse at all is outside this model: there the source
    throws a TypeError before the prefix match is reached, hence the
    well-formedness hypothesis.) -/
theorem deleteProduct_nonmatching_url_skipped
    (id : String) (env : DeleteEnv) (urls : List String) (u : String)
    (hf : env.fetchImageUrls = .ok (some urls))
    (_hu : u ∈ urls)
    (_habs : isAbsoluteUrl u = true)
    (hnm : extractFilePath (pathnameOf u) = none) :
    imageActions env u = [] ∧
    (deleteProduct id env).2 =
      .fetchImageUrls id :: (urls.flatMap (imageActions env) ++ [.deleteProductRow id]) ∧
    Action.deleteProductRow id ∈ (deleteProduct id env).2 ∧
    (env.deleteRow = none → (deleteProduct id env).1 = .ok ()) := by
  have hskip : imageActions env u = [] := by
    unfold imageActions
    rw [hnm]
  have htrace : (deleteProduct id env).2 =
      .fetchImageUrls id :: (urls.flatMap (imageActions env) ++ [.deleteProductRow id]) := by
    unfold deleteProduct
    rw [hf]
    cases env.deleteRow <;> rfl
  refine ⟨hskip, htrace, ?_, ?_⟩
  · rw [htrace]
    exact List.mem_cons_of_mem _ (List.mem_append_right _ (List.mem_singleton.mpr rfl))
  · intro hd
    unfold deleteProduct
    rw [hf, hd]

/-- A delete environment with one matching image URL and one
    well-formed URL stored outside the public-object prefix. -/
def deleteEnvForeignUrl : DeleteEnv :=
  { fetchImageUrls := .ok (some
      ["https://cdn.example.com/banners/hero.png",
       "https://x.co/storage/v1/object/public/product-images/products/a.png"])
    removeImage := fun _ => none
    deleteRow := none }

/-- Witness for C9: the foreign URL contributes no action, and the
    row deletion still proceeds and succeeds. -/
theorem deleteProduct_nonmatching_url_skipped_witness :
    imageActions deleteEnvForeignUrl "https://cdn.example.com/banners/hero.png" = [] ∧
    Action.deleteProductRow "prod-1" ∈ (deleteProduct "prod-1" deleteEnvForeignUrl).2 ∧
    (deleteProduct "prod-1" deleteEnvForeignUrl).1 = .ok () :=
  ⟨(deleteProduct_nonmatching_url_skipped "prod-1" deleteEnvForeignUrl _
      "https://cdn.example.com/banners/hero.png" rfl (by decide) (by decide) (by decide)).1,
   (deleteProduct_nonmatching_url_skipped "prod-1" deleteEnvForeignUrl _
      "https://cdn.example.com/banners/hero.png" rfl (by decide) (by decide) (by decide)).2.2.1,
   (deleteProduct_nonmatching_url_skipped "prod-1" deleteEnvForeignUrl _
      "https://cdn.example.com/banners/hero.png" rfl (by decide) (by decide) (by decide)).2.2.2 rfl⟩

/-! ## C8: updateProduct attribute replacement

    The claim says any failure of the attribute deletion or insertion
    is logged.  The source awaits the attribute delete without
    destructuring its result, so a deletion failure is neither
    inspected nor logged — it is silently ignored.  An insertion
    failure is logged.  The claim is settled as corrected. -/

/-- Example partial update carrying an attribute set. -/
def exPartialWithAttrs : PartialProduct :=
  { price := some 12, attributes := some [exAttr] }

/-- An update environment whose row update succeeds, whose attribute
    deletion fails, and whose attribute insertion succeeds. -/
def updateEnvDeleteAttrsFails : UpdateEnv :=
  { updateRow := .ok exRow
    deleteAttrs := some "foreign key violation"
    insertAttrs := fun _ => none }

/-- Counterexample to C8 as stated: with an `attributes` field
    present, a successful row update and a failing attribute
    deletion, the operation still returns the updated row as success
    and its trace contains no log action at all — the deletion
    failure is not logged, contradicting "any failure of the
    attribute deletion or insertion is logged". -/
theorem updateProduct_delete_failure_unlogged :
    updateEnvDeleteAttrsFails.deleteAttrs = some "foreign key violation" ∧
    (updateProduct "prod-1" exPartialWithAttrs updateEnvDeleteAttrsFails).1 = .ok exRow ∧
    ((updateProduct "prod-1" exPartialWithAttrs updateEnvDeleteAttrsFails).2.all
      (fun a => !a.isLog)) = true := by
  refine ⟨rfl, rfl, by decide⟩

/-- Claim C8 as amended: when the partial update contains an
    `attributes` field (even an empty one) and the row update
    succeeds, the existing attribute rows are deleted first and then
    the new set, if non-empty, is inserted; an attribute-insertion
    failure is logged but not surfaced; the attribute-deletion
    outcome is silently ignored — neither logged nor surfaced — and
    the updated product row is returned as success in every case. -/
theorem updateProduct_attribute_sync
    (id : String) (updatedProduct : PartialProduct) (env : UpdateEnv)
    (attrs : List ProductAttribute) (row : ProductRow)
    (ha : updatedProduct.attributes = some attrs)
    (hr : env.updateRow = .ok row) :
    (updateProduct id updatedProduct env).1 = .ok row ∧
    (updateProduct id updatedProduct env).2 =
      .updateProductRow id :: .deleteAttrRows id ::
        (if attrs.length > 0 then
          match env.insertAttrs (attrs.map (fun attr => { attr with product_id := some id })) with
          | some e =>
            [.insertAttrRows (attrs.map (fun attr => { attr with product_id := some id })),
             .log ("خطأ في تحديث خصائص المنتج: " ++ e)]
          | none =>
            [.insertAttrRows (attrs.map (fun attr => { attr with product_id := some id }))]
        else []) ∧
    (∀ x, updateProduct id updatedProduct { env with deleteAttrs := x } =
      updateProduct id updatedProduct env) := by
  refine ⟨?_, ?_, fun x => rfl⟩
  · unfold updateProduct
    rw [hr, ha]
    by_cases h : attrs.length > 0
    · simp only [h, if_true]
      cases env.insertAttrs (attrs.map (fun attr => { attr with product_id := some id })) <;> rfl
    · simp only [h, if_false]
  · unfold updateProduct
    rw [hr, ha]
    by_cases h : attrs.length > 0
    · simp only [h, if_true]
      cases env.insertAttrs (attrs.map (fun attr => { attr with product_id := some id })) <;> rfl
    · simp only [h, if_false]

/-- An update environment whose row update succeeds and whose
    attribute insertion fails. -/
def updateEnvInsertAttrsFails : UpdateEnv :=
  { updateRow := .ok exRow
    deleteAttrs := none
    insertAttrs := fun _ => some "not null violation" }

/-- Witness for the amended C8: deletion precedes insertion, the
    insertion failure is logged, and the updated row is returned as
    success. -/
theorem updateProduct_attribute_sync_witness :
    (updateProduct "prod-1" exPartialWithAttrs updateEnvInsertAttrsFails).1 = .ok exRow ∧
    (updateProduct "prod-1" exPartialWithAttrs updateEnvInsertAttrsFails).2 =
      .updateProductRow "prod-1" :: .deleteAttrRows "prod-1" ::
        [.insertAttrRows [{ exAttr with product_id := some "prod-1" }],
         .log ("خطأ في تحديث خصائص المنتج: " ++ "not null violation")] :=
  ⟨(updateProduct_attribute_sync "prod-1" exPartialWithAttrs updateEnvInsertAttrsFails
      [exAttr] exRow rfl rfl).1,
   (updateProduct_attribute_sync "prod-1" exPartialWithAttrs updateEnvInsertAttrsFails
      [exAttr] exRow rfl rfl).2.1⟩

/-! ## C3: top products -/

/-- Appending one item extends the per-name sales sum by the item's
    price × quantity exactly when the item resolves to that name. -/
theorem sumSales_append (name : String) (items : List OrderItem) (it : OrderItem) :
    sumSales name (items ++ [it]) =
      sumSales name items +
        (if resolveName it = name then it.price * it.quantity else 0) := by
  unfold sumSales
  rw [List.filter_append]
  by_cases h : resolveName it = name <;> simp [h]

/-- Appending one item extends the per-name quantity sum by the
    item's quantity exactly when the item resolves to that name. -/
theorem sumQuantity_append (name : String) (items : List OrderItem) (it : OrderItem) :
    sumQuantity name (items ++ [it]) =
      sumQuantity name items +
        (if resolveName it = name then it.quantity else 0) := by
  unfold sumQuantity
  rw [List.filter_append]
  by_cases h : resolveName it = name <;> simp [h]

/-- A name no processed item resolves to has accumulated nothing. -/
theorem sumSales_eq_zero {name : String} {items : List OrderItem}
    (h : ∀ it ∈ items, resolveName it ≠ name) : sumSales name items = 0 := by
  unfold sumSales
  rw [List.filter_eq_nil_iff.mpr (by simpa using h)]
  rfl

/-- A name no processed item resolves to has accumulated no quantity. -/
theorem sumQuantity_eq_zero {name : String} {items : List OrderItem}
    (h : ∀ it ∈ items, resolveName it ≠ name) : sumQuantity name items = 0 := by
  unfold sumQuantity
  rw [List.filter_eq_nil_iff.mpr (by simpa using h)]
  rfl

/-- The invariant tying the `productSales` accumulator to the items
    already processed: entry names are distinct, each entry carries
    exactly the specification-side sums over the processed items, and
    every processed item's resolved name owns an entry. -/
def SalesInv (seen : List OrderItem) (m : List SalesEntry) : Prop :=
  (m.map (fun e => e.name)).Nodup ∧
  (∀ e ∈ m, e.sales = sumSales e.name seen ∧ e.quantity = sumQuantity e.name seen) ∧
  (∀ it ∈ seen, resolveName it ∈ m.map (fun e => e.name))

/-- Processing one more item preserves the accumulator invariant. -/
theorem salesInv_addItem {seen : List OrderItem} {m : List SalesEntry}
    (it : OrderItem) (h : SalesInv seen m) :
    SalesInv (seen ++ [it]) (addItem m it) := by
  obtain ⟨hnd, hval, hcov⟩ := h
  unfold addItem
  by_cases hmem : m.any (fun e => e.name = resolveName it)
  · rw [if_pos hmem]
    have hnames : (m.map (fun e =>
        if e.name = resolveName it then
          { e with sales := e.sales + it.price * it.quantity
                   quantity := e.quantity + it.quantity }
        else e)).map (fun e => e.name) = m.map (fun e => e.name) := by
      rw [List.map_map]
      apply List.map_congr_left
      intro e _he
      by_cases hn : e.name = resolveName it <;> simp [hn]
    refine ⟨by rw [hnames]; exact hnd, ?_, ?_⟩
    · intro e' he'
      obtain ⟨e, he, rfl⟩ := List.mem_map.mp he'
      by_cases hn : e.name = resolveName it
      · rw [if_pos hn]
        refine ⟨?_, ?_⟩
        · show e.sales + it.price * it.quantity = sumSales e.name (seen ++ [it])
          rw [sumSales_append, if_pos hn.symm, (hval e he).1]
        · show e.quantity + it.quantity = sumQuantity e.name (seen ++ [it])
          rw [sumQuantity_append, if_pos hn.symm, (hval e he).2]
      · rw [if_neg hn]
        refine ⟨?_, ?_⟩
        · rw [sumSales_append, if_neg (fun hc => hn hc.symm), add_zero]
          exact (hval e he).1
        · rw [sumQuantity_append, if_neg (fun hc => hn hc.symm), add_zero]
          exact (hval e he).2
    · intro it' hit'
      rw [hnames]
      rcases List.mem_append.mp hit' with hseen | hsingle
      · exact hcov it' hseen
      · obtain rfl := List.mem_singleton.mp hsingle
        obtain ⟨e, he, hne⟩ := List.any_eq_true.mp hmem
        exact List.mem_map.mpr ⟨e, he, of_decide_eq_true hne⟩
  · rw [if_neg hmem]
    have hnot : resolveName it ∉ m.map (fun e => e.name) := by
      intro hc
      obtain ⟨e, he, hne⟩ := List.mem_map.mp hc
      exact hmem (List.any_eq_true.mpr ⟨e, he, decide_eq_true hne⟩)
    have hfresh : ∀ it' ∈ seen, resolveName it' ≠ resolveName it := by
      intro it' hit' hc
      exact hnot (hc ▸ hcov it' hit')
    refine ⟨?_, ?_, ?_⟩
    · rw [List.map_append]
      simp only [List.map_cons, List.map_nil]
      rw [List.nodup_append]
      exact ⟨hnd, List.nodup_singleton _, by simpa [List.disjoint_right] using hnot⟩
    · intro e' he'
      rcases List.mem_append.mp he' with he | hnew
      · have hne : resolveName it ≠ e'.name := by
          intro hc
          exact hnot (hc ▸ List.mem_map.mpr ⟨e', he, rfl⟩)
        constructor
        · rw [sumSales_append, if_neg hne, (hval e' he).1, add_zero]
        · rw [sumQuantity_append, if_neg hne, (hval e' he).2, add_zero]
      · obtain rfl := List.mem_singleton.mp hnew
        constructor
        · rw [sumSales_append, if_pos rfl, sumSales_eq_zero hfresh, zero_add]
        · rw [sumQuantity_append, if_pos rfl, sumQuantity_eq_zero hfresh, zero_add]
    · intro it' hit'
      rw [List.map_append]
      rcases List.mem_append.mp hit' with hseen | hsingle
      · exact List.mem_append_left _ (hcov it' hseen)
      · obtain rfl := List.mem_singleton.mp hsingle
        simp

/-- Folding any item list into an accumulator satisfying the
    invariant yields an accumulator satisfying it for the extended
    processed list. -/
theorem salesInv_foldl (its : List OrderItem) :
    ∀ (seen : List OrderItem) (m : List SalesEntry), SalesInv seen m →
      SalesInv (seen ++ its) (its.foldl addItem m) := by
  induction its with
  | nil => intro seen m h; simpa using h
  | cons it rest ih =>
    intro seen m h
    have h3 := ih (seen ++ [it]) (addItem m it) (salesInv_addItem it h)
    simpa [List.append_assoc] using h3

/-- The fully accumulated `productSales` values satisfy the
    invariant over all items of all orders. -/
theorem productSalesValues_inv (orders : List Order) :
    SalesInv (allItems orders) (productSalesValues orders) := by
  have h0 : SalesInv [] [] := by
    refine ⟨List.nodup_nil, ?_, ?_⟩ <;> intro x hx <;> simp at hx
  simpa using salesInv_foldl (allItems orders) [] [] h0

/-- Claim C3: the top-products output has at most 5 entries, is
    sorted descending by accumulated sales amount, never contains two
    entries with the same resolved display name, and each entry's
    sales and quantity are exactly the sums of price × quantity and
    of quantity over all items of all orders resolving to that name
    (Arabic name preferred, then English name, then the literal
    "Unknown Product" placeholder). -/
theorem topProducts_spec (orders : List Order) :
    (topProducts orders).length ≤ 5 ∧
    (topProducts orders).Pairwise (fun a b => b.sales ≤ a.sales) ∧
    ((topProducts orders).map (fun e => e.name)).Nodup ∧
    (∀ e ∈ topProducts orders,
      e.sales = sumSales e.name (allItems orders) ∧
      e.quantity = sumQuantity e.name (allItems orders)) := by
  obtain ⟨hnd, hval, -⟩ := productSalesValues_inv orders
  have htrans : ∀ a b c : SalesEntry, salesGe a b → salesGe b c → salesGe a c := by
    intro a b c hab hbc
    simp only [salesGe, decide_eq_true_eq] at *
    exact le_trans hbc hab
  have htotal : ∀ a b : SalesEntry, salesGe a b || salesGe b a := by
    intro a b
    simp only [salesGe, Bool.or_eq_true, decide_eq_true_eq]
    exact le_total b.sales a.sales
  have hsorted : ((productSalesValues orders).mergeSort salesGe).Pairwise
      (fun a b => salesGe a b) :=
    List.sorted_mergeSort htrans htotal (productSalesValues orders)
  have hperm : List.Perm ((productSalesValues orders).mergeSort salesGe)
      (productSalesValues orders) :=
    List.mergeSort_perm _ _
  refine ⟨?_, ?_, ?_, ?_⟩
  · exact List.length_take_le 5 _
  · have h5 := List.Pairwise.sublist (List.take_sublist 5 _) hsorted
    exact h5.imp (fun h => by simpa [salesGe, decide_eq_true_eq] using h)
  · have hmap : List.Perm
        (((productSalesValues orders).mergeSort salesGe).map (fun e => e.name))
        ((productSalesValues orders).map (fun e => e.name)) := hperm.map _
    have hnd2 := (hmap.nodup_iff).mpr hnd
    rw [topProducts, List.map_take]
    exact List.Nodup.sublist (List.take_sublist 5 _) hnd2
  · intro e he
    have h1 : e ∈ (productSalesValues orders).mergeSort salesGe :=
      List.mem_of_mem_take he
    exact hval e (List.mem_mergeSort.mp h1)

/-- Witness for C3 at the example order list. -/
theorem topProducts_spec_witness :
    (topProducts exOrders).length ≤ 5 ∧
    (topProducts exOrders).Pairwise (fun a b => b.sales ≤ a.sales) ∧
    ((topProducts exOrders).map (fun e => e.name)).Nodup ∧
    (∀ e ∈ topProducts exOrders,
      e.sales = sumSales e.name (allItems exOrders) ∧
      e.quantity = sumQuantity e.name (allItems exOrders)) :=
  topProducts_spec exOrders

end ECommerceCp
